import Mathlib

/-!
Verification development for the orderbook verification engine of the
polymarket-avs repository.  The Go package `orderbookchecker` (types,
`buildOrderbookState`, `findOrderByID`, `verifyPriceMatching`,
`verifyQuantityConstraints`, `verifyTimePriority`, `verifyTrade`,
`VerifySnapshot`) and the task-boundary function `ValidateTask` are embedded
shallowly below.  `math/big` integers become `Int`; `time.Time` values are
modelled as `Int` instants where `Before` is strict `<`; Go `error` values
become `Option String` / `Except String`; the Go pair
`(*VerificationResult, error)` becomes `Option VerificationResult × Option
String`.  The `sort.Slice` calls are modelled by `List.insertionSort` over
the complement of the Go `less` functions, which is deterministic, produces
output sorted with respect to the Go comparison, and keeps elements with
fully tied keys in input order (as the Go small-slice insertion sort does).
-/

namespace PolymarketAVS

/-- An `Order` of the snapshot, from the Go struct of the same name. -/
structure Order where
  id : String
  side : String
  price : Int
  quantity : Int
  timestamp : Int
  userID : String
deriving DecidableEq

/-- A `Trade` claim, from the Go struct of the same name. -/
structure Trade where
  id : String
  buyOrderID : String
  sellOrderID : String
  price : Int
  quantity : Int
  timestamp : Int
  txHash : String
  blockNumber : Nat
deriving DecidableEq

/-- An `OrderbookSnapshot`, from the Go struct of the same name. -/
structure OrderbookSnapshot where
  sequenceNumber : Nat
  timestamp : Int
  marketID : String
  orders : List Order
  merkleRoot : String
  prevHash : String
deriving DecidableEq

/-- The derived `OrderbookState`, from the Go struct of the same name. -/
structure OrderbookState where
  buyOrders : List Order
  sellOrders : List Order
deriving DecidableEq

/-- A `VerificationResult`, from the Go struct of the same name. -/
structure VerificationResult where
  valid : Bool
  errorMessage : String
  failedTrades : List String
  verifiedTrades : Nat
  totalTrades : Nat
deriving DecidableEq

instance exceptDecEq {ε α : Type _} [DecidableEq ε] [DecidableEq α] : DecidableEq (Except ε α)
  | .error e₁, .error e₂ =>
    if h : e₁ = e₂ then .isTrue (by rw [h]) else .isFalse (by intro hc; injection hc; contradiction)
  | .error _, .ok _ => .isFalse (by intro hc; cases hc)
  | .ok _, .error _ => .isFalse (by intro hc; cases hc)
  | .ok a₁, .ok a₂ =>
    if h : a₁ = a₂ then .isTrue (by rw [h]) else .isFalse (by intro hc; injection hc; contradiction)

/-- The Go `less` closure passed to `sort.Slice` for buy orders:
price descending, then timestamp ascending. -/
def buyLt (a b : Order) : Prop :=
  b.price < a.price ∨ (a.price = b.price ∧ a.timestamp < b.timestamp)

/-- The Go `less` closure passed to `sort.Slice` for sell orders:
price ascending, then timestamp ascending. -/
def sellLt (a b : Order) : Prop :=
  a.price < b.price ∨ (a.price = b.price ∧ a.timestamp < b.timestamp)

instance : DecidableRel buyLt := fun a b =>
  inferInstanceAs (Decidable (b.price < a.price ∨ (a.price = b.price ∧ a.timestamp < b.timestamp)))

instance : DecidableRel sellLt := fun a b =>
  inferInstanceAs (Decidable (a.price < b.price ∨ (a.price = b.price ∧ a.timestamp < b.timestamp)))

/-- The non-strict ordering induced by `buyLt`; sorting with this relation
models the postcondition of `sort.Slice` with `buyLt`. -/
def buyLe (a b : Order) : Prop := ¬ buyLt b a

/-- The non-strict ordering induced by `sellLt`. -/
def sellLe (a b : Order) : Prop := ¬ sellLt b a

instance : DecidableRel buyLe := fun a b => inferInstanceAs (Decidable (¬ buyLt b a))

instance : DecidableRel sellLe := fun a b => inferInstanceAs (Decidable (¬ sellLt b a))

instance : IsTotal Order buyLe :=
  ⟨fun a b => by unfold buyLe buyLt; omega⟩

instance : IsTrans Order buyLe :=
  ⟨fun a b c hab hbc => by unfold buyLe buyLt at *; omega⟩

instance : IsTotal Order sellLe :=
  ⟨fun a b => by unfold sellLe sellLt; omega⟩

instance : IsTrans Order sellLe :=
  ⟨fun a b c hab hbc => by unfold sellLe sellLt at *; omega⟩

/-- The partition loop of `buildOrderbookState`: walks the order list in
input order, appending to the buy and sell lists, and aborts with the Go
error message at the first order whose side is neither buy nor sell. -/
def partitionOrders : List Order → Except String (List Order × List Order)
  | [] => .ok ([], [])
  | o :: rest =>
    if o.side = "buy" then
      match partitionOrders rest with
      | .error e => .error e
      | .ok (bl, sl) => .ok (o :: bl, sl)
    else if o.side = "sell" then
      match partitionOrders rest with
      | .error e => .error e
      | .ok (bl, sl) => .ok (bl, o :: sl)
    else .error ("invalid order side: " ++ o.side)

/-- `buildOrderbookState` from the Go source: partition by side, then sort
each side with its comparison. -/
def buildOrderbookState (orders : List Order) : Except String OrderbookState :=
  match partitionOrders orders with
  | .error e => .error e
  | .ok (bl, sl) =>
    .ok { buyOrders := bl.insertionSort buyLe, sellOrders := sl.insertionSort sellLe }

/-- `findOrderByID` from the Go source: linear scan, first matching id. -/
def findOrderByID (orderID : String) : List Order → Option Order
  | [] => none
  | o :: rest => if o.id = orderID then some o else findOrderByID orderID rest

/-- `verifyPriceMatching` from the Go source.  `none` means the check
passed; `some msg` carries the Go error message. -/
def verifyPriceMatching (trade : Trade) (buyOrder sellOrder : Order) : Option String :=
  if buyOrder.price < trade.price then
    some ("buy order price " ++ toString buyOrder.price ++ " is less than trade price "
      ++ toString trade.price)
  else if trade.price < sellOrder.price then
    some ("sell order price " ++ toString sellOrder.price ++ " is greater than trade price "
      ++ toString trade.price)
  else none

/-- `verifyQuantityConstraints` from the Go source. -/
def verifyQuantityConstraints (trade : Trade) (buyOrder sellOrder : Order) : Option String :=
  if buyOrder.quantity < trade.quantity then
    some ("trade quantity " ++ toString trade.quantity ++ " exceeds buy order quantity "
      ++ toString buyOrder.quantity)
  else if sellOrder.quantity < trade.quantity then
    some ("trade quantity " ++ toString trade.quantity ++ " exceeds sell order quantity "
      ++ toString sellOrder.quantity)
  else none

/-- The buy-side loop of `verifyTimePriority`: scan `buyOrders` from the
front, stop at the matched order id, and report the first earlier order
whose price is at least the matched price and whose timestamp is strictly
earlier. -/
def buyPriorityViolation (buyOrder : Order) : List Order → Option Order
  | [] => none
  | o :: rest =>
    if o.id = buyOrder.id then none
    else if buyOrder.price ≤ o.price ∧ o.timestamp < buyOrder.timestamp then some o
    else buyPriorityViolation buyOrder rest

/-- The sell-side loop of `verifyTimePriority`. -/
def sellPriorityViolation (sellOrder : Order) : List Order → Option Order
  | [] => none
  | o :: rest =>
    if o.id = sellOrder.id then none
    else if o.price ≤ sellOrder.price ∧ o.timestamp < sellOrder.timestamp then some o
    else sellPriorityViolation sellOrder rest

/-- `verifyTimePriority` from the Go source. -/
def verifyTimePriority (trade : Trade) (buyOrder sellOrder : Order)
    (state : OrderbookState) : Option String :=
  match buyPriorityViolation buyOrder state.buyOrders with
  | some o =>
    some ("buy order " ++ o.id ++ " has priority over " ++ buyOrder.id ++ " (price: "
      ++ toString o.price ++ " vs " ++ toString buyOrder.price ++ ", time: "
      ++ toString o.timestamp ++ " vs " ++ toString buyOrder.timestamp ++ ")")
  | none =>
    match sellPriorityViolation sellOrder state.sellOrders with
    | some o =>
      some ("sell order " ++ o.id ++ " has priority over " ++ sellOrder.id ++ " (price: "
        ++ toString o.price ++ " vs " ++ toString sellOrder.price ++ ", time: "
        ++ toString o.timestamp ++ " vs " ++ toString sellOrder.timestamp ++ ")")
    | none => none

/-- `verifyTrade` from the Go source: resolve both orders, then the
price, quantity and priority checks, short-circuiting at the first
failure and wrapping messages as the Go code does. -/
def verifyTrade (trade : Trade) (state : OrderbookState) : Option String :=
  match findOrderByID trade.buyOrderID state.buyOrders with
  | none => some ("buy order not found: " ++ trade.buyOrderID)
  | some buyOrder =>
    match findOrderByID trade.sellOrderID state.sellOrders with
    | none => some ("sell order not found: " ++ trade.sellOrderID)
    | some sellOrder =>
      match verifyPriceMatching trade buyOrder sellOrder with
      | some e => some ("price matching failed: " ++ e)
      | none =>
        match verifyQuantityConstraints trade buyOrder sellOrder with
        | some e => some ("quantity constraints failed: " ++ e)
        | none =>
          match verifyTimePriority trade buyOrder sellOrder state with
          | some e => some ("time priority failed: " ++ e)
          | none => none

/-- The result record `VerifySnapshot` starts from. -/
def initResult (n : Nat) : VerificationResult :=
  { valid := true, errorMessage := "", failedTrades := [], verifiedTrades := 0, totalTrades := n }

/-- The per-trade loop of `VerifySnapshot`: on failure, mark invalid,
append the trade id, and set the error message only if it is still empty. -/
def processTrades (state : OrderbookState) : List Trade → VerificationResult → VerificationResult
  | [], r => r
  | t :: rest, r =>
    match verifyTrade t state with
    | some e =>
      processTrades state rest
        { r with valid := false,
                 failedTrades := r.failedTrades ++ [t.id],
                 errorMessage :=
                   if r.errorMessage = "" then "trade " ++ t.id ++ " failed: " ++ e
                   else r.errorMessage }
    | none => processTrades state rest { r with verifiedTrades := r.verifiedTrades + 1 }

/-- `VerifySnapshot` from the Go source.  The returned pair mirrors the Go
pair of a result pointer and an error: on a structural build error the Go
code returns a partly filled result together with the error. -/
def VerifySnapshot (trades : List Trade) (snapshot : OrderbookSnapshot) :
    Option VerificationResult × Option String :=
  match buildOrderbookState snapshot.orders with
  | .error e =>
    (some { valid := false, errorMessage := "failed to build orderbook state: " ++ e,
            failedTrades := [], verifiedTrades := 0, totalTrades := trades.length },
     some e)
  | .ok state => (some (processTrades state trades (initResult trades.length)), none)

/-- The parsed task input of the performer boundary. -/
structure TaskInput where
  snapshotHash : String
  snapshot : OrderbookSnapshot
  trades : List Trade
  tradeBatchID : String
deriving DecidableEq

/-- The referential loop of `ValidateTask`: every trade must reference
order ids present in the snapshot, buy side checked before sell side. -/
def checkTradeRefs (orders : List Order) : List Trade → Option String
  | [] => none
  | t :: rest =>
    if orders.any (fun o => o.id == t.buyOrderID) then
      if orders.any (fun o => o.id == t.sellOrderID) then checkTradeRefs orders rest
      else some ("trade " ++ t.id ++ " references unknown sell order " ++ t.sellOrderID)
    else some ("trade " ++ t.id ++ " references unknown buy order " ++ t.buyOrderID)

/-- `ValidateTask` from the Go task worker, after JSON parsing: the
required-field checks in source order, then the referential check. -/
def ValidateTask (ti : TaskInput) : Option String :=
  if ti.snapshotHash = "" then some ("snapshot_hash is required")
  else if ti.tradeBatchID = "" then some ("trade_batch_id is required")
  else if ti.snapshot.sequenceNumber = 0 then some ("snapshot sequence_number is required")
  else if ti.snapshot.marketID = "" then some ("snapshot market_id is required")
  else if ti.trades = [] then some ("trades array cannot be empty")
  else if ti.snapshot.orders = [] then some ("snapshot must contain at least one order")
  else checkTradeRefs ti.snapshot.orders ti.trades

/-- The error message recorded for the first failing trade of a batch, in
input order; empty when every trade passes. -/
def firstFailMsg (state : OrderbookState) (trades : List Trade) : String :=
  match trades.find? (fun t => (verifyTrade t state).isSome) with
  | none => ""
  | some t => "trade " ++ t.id ++ " failed: " ++ ((verifyTrade t state).getD "")

/-- Fixture helper: an order with the given id, side, price, quantity and
timestamp. -/
def mkOrder (i sd : String) (p q ts : Int) : Order :=
  { id := i, side := sd, price := p, quantity := q, timestamp := ts, userID := "u" }

/-- Fixture helper: a trade with the given id, order references, price and
quantity. -/
def mkTrade (i bid sid : String) (p q : Int) : Trade :=
  { id := i, buyOrderID := bid, sellOrderID := sid, price := p, quantity := q,
    timestamp := 0, txHash := "", blockNumber := 0 }

/-- Fixture helper: a snapshot holding the given orders. -/
def mkSnap (os : List Order) : OrderbookSnapshot :=
  { sequenceNumber := 1, timestamp := 0, marketID := "m", orders := os,
    merkleRoot := "", prevHash := "" }

/-- C1 fixture: a buy order at a high price but a late timestamp. -/
def c1A : Order := mkOrder "A" "buy" 10 100 5

/-- C1 fixture: the matched buy order, lower priced, earlier timestamp. -/
def c1B : Order := mkOrder "B" "buy" 5 100 1

/-- C1 fixture: a sell order the trade can match. -/
def c1S : Order := mkOrder "S" "sell" 1 100 0

/-- C1 fixture: a trade matching the later-sorted buy order. -/
def c1T : Trade := mkTrade "T" "B" "S" 5 50

/-- C2 fixture: an order with an invalid side tag. -/
def c2order : Order := mkOrder "h1" "hold" 10 10 0

/-- C2 fixture: a snapshot holding the invalid order. -/
def c2snap : OrderbookSnapshot := mkSnap [c2order]

/-- C3 fixture: a buy order. -/
def c3buy : Order := mkOrder "b3" "buy" 100 10 0

/-- C3 fixture: a sell order at the same price. -/
def c3sell : Order := mkOrder "s3" "sell" 100 10 0

/-- C3 fixture: a trade priced exactly at both order prices. -/
def c3exact : Trade := mkTrade "t3a" "b3" "s3" 100 5

/-- C3 fixture: a trade priced one unit above the buy order price. -/
def c3above : Trade := mkTrade "t3b" "b3" "s3" 101 5

/-- C4 fixture: a buy order of quantity 50. -/
def c4buy : Order := mkOrder "cb" "buy" 100 50 0

/-- C4 fixture: a sell order of quantity 50. -/
def c4sell : Order := mkOrder "cs" "sell" 90 50 1

/-- C4 fixture: the state holding the two orders. -/
def c4state : OrderbookState := { buyOrders := [c4buy], sellOrders := [c4sell] }

/-- C4 fixture: a trade claiming the full quantity of both orders. -/
def c4t : Trade := mkTrade "ct" "cb" "cs" 95 50

/-- C5 fixture: a buy order fully tied with `c5b` on price and timestamp. -/
def c5a : Order := mkOrder "a5" "buy" 10 1 0

/-- C5 fixture: a distinct buy order with the same price and timestamp. -/
def c5b : Order := mkOrder "b5" "buy" 10 1 0

/-- C5 fixture: a buy order with a key distinct from every other fixture. -/
def c5c : Order := mkOrder "c5c" "buy" 3 1 0

/-- C5 fixture: a sell order. -/
def c5d : Order := mkOrder "c5d" "sell" 4 1 0

/-- C6 fixture: a buy order. -/
def c6o1 : Order := mkOrder "o1" "buy" 5 10 3

/-- C6 fixture: a better-priced buy order. -/
def c6o2 : Order := mkOrder "o2" "buy" 7 10 4

/-- C6 fixture: a sell order. -/
def c6o3 : Order := mkOrder "o3" "sell" 6 10 1

/-- C7 fixture: a buy order. -/
def c7buy : Order := mkOrder "b7" "buy" 100 50 0

/-- C7 fixture: a sell order. -/
def c7sell : Order := mkOrder "s7" "sell" 90 50 1

/-- C7 fixture: a snapshot holding the two orders. -/
def c7snap : OrderbookSnapshot := mkSnap [c7buy, c7sell]

/-- C7 fixture: the state built from the snapshot. -/
def c7state : OrderbookState := { buyOrders := [c7buy], sellOrders := [c7sell] }

/-- C7 fixture: a passing trade. -/
def c7good : Trade := mkTrade "t7a" "b7" "s7" 95 10

/-- C7 fixture: a trade failing the price rule. -/
def c7bad : Trade := mkTrade "t7b" "b7" "s7" 200 10

/-- C8 fixture: a sell order whose id the trade names as its buy order. -/
def c8sell : Order := mkOrder "x" "sell" 10 10 0

/-- C8 fixture: a state with that order on the sell side only. -/
def c8state : OrderbookState := { buyOrders := [], sellOrders := [c8sell] }

/-- C8 fixture: a trade referencing the sell-side id on both sides. -/
def c8t : Trade := mkTrade "t8" "x" "x" 10 1

/-- C8 fixture: the snapshot holding the sell order. -/
def c8snap : OrderbookSnapshot := mkSnap [c8sell]

/-- The non-strict buy ordering spelt out on the key fields. -/
theorem buyLe_iff (a b : Order) :
    buyLe a b ↔ b.price < a.price ∨ (a.price = b.price ∧ a.timestamp ≤ b.timestamp) := by
  unfold buyLe buyLt
  omega

/-- The non-strict sell ordering spelt out on the key fields. -/
theorem sellLe_iff (a b : Order) :
    sellLe a b ↔ a.price < b.price ∨ (a.price = b.price ∧ a.timestamp ≤ b.timestamp) := by
  unfold sellLe sellLt
  omega

/-- When every side tag is valid, the partition loop returns the two side
filters of the input list, in input order. -/
theorem partitionOrders_eq_filter (l : List Order)
    (h : ∀ o ∈ l, o.side = "buy" ∨ o.side = "sell") :
    partitionOrders l =
      .ok (l.filter (fun o => o.side == "buy"), l.filter (fun o => o.side == "sell")) := by
  induction l with
  | nil => simp [partitionOrders]
  | cons o rest ih =>
    have hrest : ∀ x ∈ rest, x.side = "buy" ∨ x.side = "sell" := fun x hx => h x (by simp [hx])
    rcases h o (by simp) with hb | hs
    · simp [partitionOrders, hb, ih hrest, List.filter_cons]
    · have hb : ¬ o.side = "buy" := by simp [hs]
      simp [partitionOrders, hb, hs, ih hrest, List.filter_cons]

/-- A list holding an order with an invalid side makes the partition loop
abort with a structural error. -/
theorem partitionOrders_error (l : List Order)
    (h : ∃ o ∈ l, ¬(o.side = "buy" ∨ o.side = "sell")) :
    ∃ e, partitionOrders l = .error e := by
  induction l with
  | nil => simp at h
  | cons o rest ih =>
    rcases h with ⟨x, hx, hxside⟩
    push_neg at hxside
    rcases List.mem_cons.mp hx with rfl | hxr
    · exact ⟨"invalid order side: " ++ x.side, by simp [partitionOrders, hxside.1, hxside.2]⟩
    · by_cases hb : o.side = "buy"
      · rcases ih ⟨x, hxr, by push_neg; exact hxside⟩ with ⟨e, he⟩
        exact ⟨e, by simp [partitionOrders, hb, he]⟩
      · by_cases hs : o.side = "sell"
        · rcases ih ⟨x, hxr, by push_neg; exact hxside⟩ with ⟨e, he⟩
          exact ⟨e, by simp [partitionOrders, hb, hs, he]⟩
        · exact ⟨"invalid order side: " ++ o.side, by simp [partitionOrders, hb, hs]⟩

/-- When every side tag is valid, the built state is the sorted pair of
side filters. -/
theorem buildOrderbookState_eq (l : List Order)
    (h : ∀ o ∈ l, o.side = "buy" ∨ o.side = "sell") :
    buildOrderbookState l =
      .ok { buyOrders := (l.filter (fun o => o.side == "buy")).insertionSort buyLe,
            sellOrders := (l.filter (fun o => o.side == "sell")).insertionSort sellLe } := by
  simp [buildOrderbookState, partitionOrders_eq_filter l h]

/-- The Go lookup loop is first-match search. -/
theorem findOrderByID_eq_find (orderID : String) (l : List Order) :
    findOrderByID orderID l = l.find? (fun o => o.id == orderID) := by
  induction l with
  | nil => simp [findOrderByID]
  | cons o rest ih =>
    by_cases h : o.id = orderID
    · simp [findOrderByID, h]
    · simp [findOrderByID, h, ih]

/-- The buy-side priority scan passes exactly when no order in the strict
prefix before the matched id offers at least the matched price with a
strictly earlier timestamp. -/
theorem buyPriorityViolation_eq_none_iff (b : Order) (l : List Order) :
    buyPriorityViolation b l = none ↔
      ∀ o ∈ l.takeWhile (fun o => o.id != b.id),
        ¬(b.price ≤ o.price ∧ o.timestamp < b.timestamp) := by
  induction l with
  | nil => simp [buyPriorityViolation]
  | cons o rest ih =>
    by_cases h : o.id = b.id
    · simp [buyPriorityViolation, h, List.takeWhile_cons]
    · by_cases hc : b.price ≤ o.price ∧ o.timestamp < b.timestamp
      · simp [buyPriorityViolation, h, hc, List.takeWhile_cons]
      · simp [buyPriorityViolation, h, hc, List.takeWhile_cons, ih]
        intro _ hp
        omega

/-- The sell-side analogue of `buyPriorityViolation_eq_none_iff`. -/
theorem sellPriorityViolation_eq_none_iff (s : Order) (l : List Order) :
    sellPriorityViolation s l = none ↔
      ∀ o ∈ l.takeWhile (fun o => o.id != s.id),
        ¬(o.price ≤ s.price ∧ o.timestamp < s.timestamp) := by
  induction l with
  | nil => simp [sellPriorityViolation]
  | cons o rest ih =>
    by_cases h : o.id = s.id
    · simp [sellPriorityViolation, h, List.takeWhile_cons]
    · by_cases hc : o.price ≤ s.price ∧ o.timestamp < s.timestamp
      · simp [sellPriorityViolation, h, hc, List.takeWhile_cons]
      · simp [sellPriorityViolation, h, hc, List.takeWhile_cons, ih]
        intro _ hp
        omega

/-- The time-priority check passes exactly when both side scans pass. -/
theorem verifyTimePriority_eq_none_iff (t : Trade) (b s : Order) (st : OrderbookState) :
    verifyTimePriority t b s st = none ↔
      buyPriorityViolation b st.buyOrders = none ∧
      sellPriorityViolation s st.sellOrders = none := by
  unfold verifyTimePriority
  cases hb : buyPriorityViolation b st.buyOrders <;>
    cases hs : sellPriorityViolation s st.sellOrders <;> simp

/-- The loop never changes the recorded trade total. -/
theorem processTrades_totalTrades (st : OrderbookState) (ts : List Trade) :
    ∀ r, (processTrades st ts r).totalTrades = r.totalTrades := by
  induction ts with
  | nil => intro r; rfl
  | cons t rest ih =>
    intro r
    cases h : verifyTrade t st <;> simp [processTrades, h, ih]

/-- The loop appends the failing trade ids in input order. -/
theorem processTrades_failedTrades (st : OrderbookState) (ts : List Trade) :
    ∀ r, (processTrades st ts r).failedTrades =
      r.failedTrades ++ (ts.filter (fun t => (verifyTrade t st).isSome)).map Trade.id := by
  induction ts with
  | nil => intro r; simp [processTrades]
  | cons t rest ih =>
    intro r
    cases h : verifyTrade t st <;> simp [processTrades, h, ih, List.filter_cons]

/-- The loop counts exactly the passing trades. -/
theorem processTrades_verifiedTrades (st : OrderbookState) (ts : List Trade) :
    ∀ r, (processTrades st ts r).verifiedTrades =
      r.verifiedTrades + (ts.filter (fun t => (verifyTrade t st).isNone)).length := by
  induction ts with
  | nil => intro r; simp [processTrades]
  | cons t rest ih =>
    intro r
    cases h : verifyTrade t st <;> simp [processTrades, h, ih, List.filter_cons] <;> omega

/-- The loop leaves `valid` true exactly when it started true and every
trade passes. -/
theorem processTrades_valid (st : OrderbookState) (ts : List Trade) :
    ∀ r, (processTrades st ts r).valid = (r.valid && ts.all (fun t => (verifyTrade t st).isNone)) := by
  induction ts with
  | nil => intro r; simp [processTrades]
  | cons t rest ih =>
    intro r
    cases h : verifyTrade t st <;> simp [processTrades, h, ih]

/-- The failure message written by the loop is never the empty string. -/
theorem trade_msg_ne_empty (a e : String) : ("trade " ++ a ++ " failed: " ++ e) ≠ "" := by
  intro h
  have hl := congrArg String.length h
  simp [String.length_append] at hl
  exact absurd hl.1.1.1 (by decide)

/-- The loop keeps a nonempty message unchanged and otherwise records the
message of the first failing trade in input order. -/
theorem processTrades_errorMessage_eq (st : OrderbookState) (ts : List Trade) :
    ∀ r, (processTrades st ts r).errorMessage =
      if r.errorMessage = "" then firstFailMsg st ts else r.errorMessage := by
  induction ts with
  | nil =>
    intro r
    by_cases hr : r.errorMessage = "" <;> simp [processTrades, firstFailMsg, hr]
  | cons t rest ih =>
    intro r
    cases h : verifyTrade t st with
    | none =>
      have hs : (verifyTrade t st).isSome = false := by simp [h]
      rw [processTrades]
      simp only [h]
      rw [ih]
      by_cases hr : r.errorMessage = "" <;>
        simp [hr, firstFailMsg, List.find?_cons, hs]
    | some e =>
      have hs : (verifyTrade t st).isSome = true := by simp [h]
      rw [processTrades]
      simp only [h]
      rw [ih]
      by_cases hr : r.errorMessage = "" <;>
        simp [hr, firstFailMsg, List.find?_cons, hs, h, trade_msg_ne_empty]

/-- The referential loop passes exactly when every trade references known
buy and sell order ids. -/
theorem checkTradeRefs_eq_none_iff (orders : List Order) (ts : List Trade) :
    checkTradeRefs orders ts = none ↔
      ∀ t ∈ ts, (∃ o ∈ orders, o.id = t.buyOrderID) ∧ (∃ o ∈ orders, o.id = t.sellOrderID) := by
  induction ts with
  | nil => simp [checkTradeRefs]
  | cons t rest ih =>
    by_cases hb : orders.any (fun o => o.id == t.buyOrderID) = true
    · by_cases hs : orders.any (fun o => o.id == t.sellOrderID) = true
      · simp only [checkTradeRefs, hb, hs, if_true, ih]
        constructor
        · intro hall
          intro u hu
          rcases List.mem_cons.mp hu with rfl | hur
          · refine ⟨?_, ?_⟩
            · simpa [List.any_eq_true] using hb
            · simpa [List.any_eq_true] using hs
          · exact hall u hur
        · intro hall u hu
          exact hall u (by simp [hu])
      · simp only [checkTradeRefs, hb, hs, if_true, if_false]
        constructor
        · intro hsome; cases hsome
        · intro hall
          exact absurd (by simpa [List.any_eq_true] using (hall t (by simp)).2) hs
    · simp only [checkTradeRefs, hb, if_false]
      constructor
      · intro hsome; cases hsome
      · intro hall
        exact absurd (by simpa [List.any_eq_true] using (hall t (by simp)).1) hb

/-- Two sorted permutations of each other are equal when the ordering is
antisymmetric on the elements involved. -/
theorem sorted_perm_eq {α : Type _} {le : α → α → Prop} (l₁ : List α) :
    ∀ l₂ : List α, l₁.Perm l₂ → l₁.Pairwise le → l₂.Pairwise le →
      (∀ a ∈ l₁, ∀ b ∈ l₁, le a b → le b a → a = b) → l₁ = l₂ := by
  induction l₁ with
  | nil =>
    intro l₂ hp _ _ _
    exact hp.nil_eq
  | cons a t₁ ih =>
    intro l₂ hp hs₁ hs₂ has
    cases l₂ with
    | nil => exact absurd hp (by simp)
    | cons b t₂ =>
      have hab : a = b := by
        by_cases h : a = b
        · exact h
        · have hbmem : b ∈ a :: t₁ := hp.mem_iff.mpr (by simp)
          have hamem : a ∈ b :: t₂ := hp.mem_iff.mp (by simp)
          have hbt₁ : b ∈ t₁ := by
            rcases List.mem_cons.mp hbmem with h1 | h1
            · exact absurd h1.symm h
            · exact h1
          have hat₂ : a ∈ t₂ := by
            rcases List.mem_cons.mp hamem with h1 | h1
            · exact absurd h1 h
            · exact h1
          have h1 : le a b := (List.pairwise_cons.mp hs₁).1 b hbt₁
          have h2 : le b a := (List.pairwise_cons.mp hs₂).1 a hat₂
          exact has a (by simp) b hbmem h1 h2
      subst hab
      have ht : t₁.Perm t₂ := hp.cons_inv
      have heq := ih t₂ ht (List.pairwise_cons.mp hs₁).2 (List.pairwise_cons.mp hs₂).2
        (fun x hx y hy => has x (by simp [hx]) y (by simp [hy]))
      rw [heq]

/-- Each trade is counted exactly once, as passing or as failing. -/
theorem filter_pass_fail_length (st : OrderbookState) (ts : List Trade) :
    (ts.filter (fun t => (verifyTrade t st).isNone)).length
      + (ts.filter (fun t => (verifyTrade t st).isSome)).length = ts.length := by
  induction ts with
  | nil => simp
  | cons t rest ih =>
    cases h : verifyTrade t st <;> simp [List.filter_cons, h] <;> omega

/-- The recorded first-failure message is empty exactly when no trade
fails. -/
theorem firstFailMsg_eq_empty_iff (st : OrderbookState) (ts : List Trade) :
    firstFailMsg st ts = "" ↔ ts.filter (fun t => (verifyTrade t st).isSome) = [] := by
  unfold firstFailMsg
  cases h : ts.find? (fun t => (verifyTrade t st).isSome) with
  | none =>
    rw [List.find?_eq_none] at h
    simp only [List.filter_eq_nil_iff]
    constructor
    · intro _ t ht
      simpa using h t ht
    · intro _
      trivial
  | some t =>
    have hp := List.find?_some h
    have hm := List.mem_of_find?_eq_some h
    have hmem : t ∈ ts.filter (fun t => (verifyTrade t st).isSome) :=
      List.mem_filter.mpr ⟨hm, hp⟩
    constructor
    · intro habs
      exact absurd habs (trade_msg_ne_empty _ _)
    · intro hfil
      rw [hfil] at hmem
      cases hmem

/-- Claim C1 (amended): the time-priority check fails exactly when some
order strictly before the matched buy order in the sorted buy sequence has
price at least the matched price AND a strictly earlier timestamp, or
symmetrically on the sell side with price at most the matched price AND a
strictly earlier timestamp; position in the sorted sequence alone does not
decide the violation. -/
theorem C1_priority_check_characterization (t : Trade) (b s : Order) (st : OrderbookState) :
    verifyTimePriority t b s st ≠ none ↔
      ((∃ o ∈ st.buyOrders.takeWhile (fun o => o.id != b.id),
          b.price ≤ o.price ∧ o.timestamp < b.timestamp) ∨
       (∃ o ∈ st.sellOrders.takeWhile (fun o => o.id != s.id),
          o.price ≤ s.price ∧ o.timestamp < s.timestamp)) := by
  rw [Ne, verifyTimePriority_eq_none_iff, buyPriorityViolation_eq_none_iff,
    sellPriorityViolation_eq_none_iff, not_and_or]
  push_neg
  simp

/-- Claim C1 as stated is false: in the orderbook state built from this
snapshot, order `c1A` sits strictly before the matched buy order `c1B`
with a price at least the matched price, yet the priority check passes,
because the timestamp of `c1A` is not strictly earlier. -/
theorem C1_counterexample :
    buildOrderbookState [c1A, c1B, c1S] =
      .ok { buyOrders := [c1A, c1B], sellOrders := [c1S] }
    ∧ c1B.price ≤ c1A.price
    ∧ (c1A ∈ [c1A, c1B].takeWhile (fun o => o.id != c1B.id))
    ∧ verifyTimePriority c1T c1B c1S { buyOrders := [c1A, c1B], sellOrders := [c1S] } = none := by
  refine ⟨by decide, by decide, by decide, by decide⟩

/-- Claim C2 (amended): a snapshot holding an order with an invalid side
makes `VerifySnapshot` return a structural error, but a partial
`VerificationResult` (valid false, a build error message, the trade total,
no per-trade outcomes) is returned alongside the error. -/
theorem C2_structural_error (trades : List Trade) (snap : OrderbookSnapshot)
    (h : ∃ o ∈ snap.orders, ¬(o.side = "buy" ∨ o.side = "sell")) :
    ∃ e, VerifySnapshot trades snap =
      (some { valid := false, errorMessage := "failed to build orderbook state: " ++ e,
              failedTrades := [], verifiedTrades := 0, totalTrades := trades.length },
       some e) := by
  rcases partitionOrders_error snap.orders h with ⟨e, he⟩
  exact ⟨e, by simp [VerifySnapshot, buildOrderbookState, he]⟩

/-- Witness for C2: the amended statement evaluated on the concrete
invalid-side snapshot. -/
theorem C2_structural_error_witness :
    ∃ e, VerifySnapshot [] c2snap =
      (some { valid := false, errorMessage := "failed to build orderbook state: " ++ e,
              failedTrades := [], verifiedTrades := 0, totalTrades := 0 },
       some e) :=
  C2_structural_error [] c2snap (by decide)

/-- Claim C2 as stated is false: on an invalid-side snapshot the call
returns the structural error together with a partial result, not with no
result. -/
theorem C2_counterexample :
    VerifySnapshot [] c2snap =
      (some { valid := false,
              errorMessage := "failed to build orderbook state: invalid order side: hold",
              failedTrades := [], verifiedTrades := 0, totalTrades := 0 },
       some ("invalid order side: hold")) := by
  decide

/-- Claim C3: the price check passes exactly when the buy order price is
at least the trade price and the sell order price is at most the trade
price; a trade priced exactly at both passes, one unit above the buy
price fails, one unit below the sell price fails. -/
theorem C3_price_rule (t : Trade) (b s : Order) :
    (verifyPriceMatching t b s = none ↔ t.price ≤ b.price ∧ s.price ≤ t.price)
    ∧ (b.price = t.price → s.price = t.price → verifyPriceMatching t b s = none)
    ∧ (t.price = b.price + 1 → verifyPriceMatching t b s ≠ none)
    ∧ (t.price = s.price - 1 → verifyPriceMatching t b s ≠ none) := by
  unfold verifyPriceMatching
  refine ⟨?_, ?_, ?_, ?_⟩
  · split_ifs with h1 h2 <;> simp <;> omega
  · intro hb hs
    rw [if_neg (by omega), if_neg (by omega)]
  · intro h1
    rw [if_pos (by omega)]
    simp
  · intro h2
    by_cases hh : b.price < t.price
    · simp [hh]
    · rw [if_neg hh, if_pos (by omega)]
      simp

/-- Witness for C3 at concrete prices: the exactly-priced trade passes
and the one-unit-above trade fails. -/
theorem C3_price_rule_witness :
    verifyPriceMatching c3exact c3buy c3sell = none
    ∧ verifyPriceMatching c3above c3buy c3sell ≠ none :=
  ⟨(C3_price_rule c3exact c3buy c3sell).2.1 (by decide) (by decide),
   (C3_price_rule c3above c3buy c3sell).2.2.1 (by decide)⟩

/-- Claim C4: the quantity check passes exactly when the trade quantity is
at most both order quantities, and each trade of a batch is checked
against the full posted snapshot quantities independently of the other
trades: a batch of two copies of one passing full-quantity trade verifies
both copies. -/
theorem C4_quantity_rule (t : Trade) (b s : Order) (st : OrderbookState) (u : Trade)
    (hu : verifyTrade u st = none) :
    (verifyQuantityConstraints t b s = none ↔
      t.quantity ≤ b.quantity ∧ t.quantity ≤ s.quantity)
    ∧ processTrades st [u, u] (initResult 2) =
        { valid := true, errorMessage := "", failedTrades := [],
          verifiedTrades := 2, totalTrades := 2 } := by
  constructor
  · unfold verifyQuantityConstraints
    split_ifs with h1 h2 <;> simp <;> omega
  · simp [processTrades, hu, initResult]

/-- Witness for C4: a trade claiming the full quantity of both its orders
passes, and a batch of two copies of it verifies both. -/
theorem C4_quantity_rule_witness :
    (verifyQuantityConstraints c4t c4buy c4sell = none ↔
      c4t.quantity ≤ c4buy.quantity ∧ c4t.quantity ≤ c4sell.quantity)
    ∧ processTrades c4state [c4t, c4t] (initResult 2) =
        { valid := true, errorMessage := "", failedTrades := [],
          verifiedTrades := 2, totalTrades := 2 } :=
  C4_quantity_rule c4t c4buy c4sell c4state c4t (by decide)

/-- Claim C5 (amended): building the state is a pure function, and for
order lists of valid sides in which no two same-side orders share both
price and timestamp, any permutation of the input builds the identical
state; a full price-and-timestamp tie between two distinct same-side
orders can make permuted inputs build different sequences. -/
theorem C5_build_permutation_no_ties (l₁ l₂ : List Order)
    (hp : l₁.Perm l₂)
    (hside : ∀ o ∈ l₁, o.side = "buy" ∨ o.side = "sell")
    (hkey : ∀ a ∈ l₁, ∀ b ∈ l₁, a.side = b.side → a.price = b.price →
      a.timestamp = b.timestamp → a = b) :
    buildOrderbookState l₁ = buildOrderbookState l₂ := by
  have hside₂ : ∀ o ∈ l₂, o.side = "buy" ∨ o.side = "sell" :=
    fun o ho => hside o (hp.mem_iff.mpr ho)
  rw [buildOrderbookState_eq l₁ hside, buildOrderbookState_eq l₂ hside₂]
  have hbuy : (l₁.filter (fun o => o.side == "buy")).insertionSort buyLe
      = (l₂.filter (fun o => o.side == "buy")).insertionSort buyLe := by
    apply sorted_perm_eq
    · exact (List.perm_insertionSort buyLe _).trans
        ((hp.filter _).trans (List.perm_insertionSort buyLe _).symm)
    · exact List.sorted_insertionSort buyLe _
    · exact List.sorted_insertionSort buyLe _
    · intro a ha b hb hab hba
      have ha' : a ∈ l₁ ∧ a.side = "buy" := by
        have : a ∈ l₁.filter (fun o => o.side == "buy") := by simpa using ha
        simpa using List.mem_filter.mp this
      have hb' : b ∈ l₁ ∧ b.side = "buy" := by
        have : b ∈ l₁.filter (fun o => o.side == "buy") := by simpa using hb
        simpa using List.mem_filter.mp this
      rw [buyLe_iff] at hab hba
      exact hkey a ha'.1 b hb'.1 (by rw [ha'.2, hb'.2]) (by omega) (by omega)
  have hsell : (l₁.filter (fun o => o.side == "sell")).insertionSort sellLe
      = (l₂.filter (fun o => o.side == "sell")).insertionSort sellLe := by
    apply sorted_perm_eq
    · exact (List.perm_insertionSort sellLe _).trans
        ((hp.filter _).trans (List.perm_insertionSort sellLe _).symm)
    · exact List.sorted_insertionSort sellLe _
    · exact List.sorted_insertionSort sellLe _
    · intro a ha b hb hab hba
      have ha' : a ∈ l₁ ∧ a.side = "sell" := by
        have : a ∈ l₁.filter (fun o => o.side == "sell") := by simpa using ha
        simpa using List.mem_filter.mp this
      have hb' : b ∈ l₁ ∧ b.side = "sell" := by
        have : b ∈ l₁.filter (fun o => o.side == "sell") := by simpa using hb
        simpa using List.mem_filter.mp this
      rw [sellLe_iff] at hab hba
      exact hkey a ha'.1 b hb'.1 (by rw [ha'.2, hb'.2]) (by omega) (by omega)
  rw [hbuy, hsell]

/-- Witness for C5: two orders with distinct keys build the same state
from either input order. -/
theorem C5_build_permutation_witness :
    buildOrderbookState [c5c, c5d] = buildOrderbookState [c5d, c5c] :=
  C5_build_permutation_no_ties [c5c, c5d] [c5d, c5c]
    (List.Perm.swap c5d c5c []) (by decide) (by decide)

/-- Claim C5 as stated is false: these two lists are permutations of each
other, contain two distinct orders with equal price and equal timestamp,
and build different buy sequences. -/
theorem C5_counterexample :
    List.Perm [c5a, c5b] [c5b, c5a]
    ∧ c5a ≠ c5b ∧ c5a.price = c5b.price ∧ c5a.timestamp = c5b.timestamp
    ∧ buildOrderbookState [c5a, c5b] ≠ buildOrderbookState [c5b, c5a] :=
  ⟨List.Perm.swap c5b c5a [], by decide, by decide, by decide, by decide⟩

/-- Claim C6: on a list of valid-sided orders the build succeeds, the buy
sequence is the buy-side input orders sorted by price descending with
price ties ordered by timestamp ascending, and the sell sequence is the
sell-side input orders sorted by price ascending with price ties ordered
by timestamp ascending. -/
theorem C6_build_sorted (orders : List Order)
    (h : ∀ o ∈ orders, o.side = "buy" ∨ o.side = "sell") :
    ∃ st, buildOrderbookState orders = .ok st
      ∧ st.buyOrders.Perm (orders.filter (fun o => o.side == "buy"))
      ∧ st.buyOrders.Pairwise
          (fun a b => b.price < a.price ∨ (a.price = b.price ∧ a.timestamp ≤ b.timestamp))
      ∧ st.sellOrders.Perm (orders.filter (fun o => o.side == "sell"))
      ∧ st.sellOrders.Pairwise
          (fun a b => a.price < b.price ∨ (a.price = b.price ∧ a.timestamp ≤ b.timestamp)) := by
  refine ⟨_, buildOrderbookState_eq orders h, ?_, ?_, ?_, ?_⟩
  · exact List.perm_insertionSort buyLe _
  · exact (List.sorted_insertionSort buyLe _).imp (fun hab => (buyLe_iff _ _).mp hab)
  · exact List.perm_insertionSort sellLe _
  · exact (List.sorted_insertionSort sellLe _).imp (fun hab => (sellLe_iff _ _).mp hab)

/-- Witness for C6 on a concrete three-order snapshot list. -/
theorem C6_build_sorted_witness :
    ∃ st, buildOrderbookState [c6o1, c6o2, c6o3] = .ok st
      ∧ st.buyOrders.Perm ([c6o1, c6o2, c6o3].filter (fun o => o.side == "buy"))
      ∧ st.buyOrders.Pairwise
          (fun a b => b.price < a.price ∨ (a.price = b.price ∧ a.timestamp ≤ b.timestamp))
      ∧ st.sellOrders.Perm ([c6o1, c6o2, c6o3].filter (fun o => o.side == "sell"))
      ∧ st.sellOrders.Pairwise
          (fun a b => a.price < b.price ∨ (a.price = b.price ∧ a.timestamp ≤ b.timestamp)) :=
  C6_build_sorted [c6o1, c6o2, c6o3] (by decide)

/-- Claim C7: for a batch processed without structural error, the result
is valid exactly when no trade failed, the failing trade ids are listed in
input order, and the error message is the message of the first failing
trade in input order, never overwritten by later failures. -/
theorem C7_batch_aggregation (trades : List Trade) (snap : OrderbookSnapshot)
    (st : OrderbookState) (r : VerificationResult)
    (hb : buildOrderbookState snap.orders = .ok st)
    (hr : VerifySnapshot trades snap = (some r, none)) :
    (r.valid = true ↔ r.failedTrades = [])
    ∧ r.failedTrades = (trades.filter (fun t => (verifyTrade t st).isSome)).map Trade.id
    ∧ r.errorMessage = firstFailMsg st trades := by
  have key : VerifySnapshot trades snap =
      (some (processTrades st trades (initResult trades.length)), none) := by
    unfold VerifySnapshot
    rw [hb]
  rw [key] at hr
  have hPr : processTrades st trades (initResult trades.length) = r := by
    have := congrArg Prod.fst hr
    simpa using this
  subst hPr
  refine ⟨?_, ?_, ?_⟩
  · rw [processTrades_valid, processTrades_failedTrades]
    simp [initResult, List.all_eq_true, List.filter_eq_nil_iff]
  · rw [processTrades_failedTrades]
    simp [initResult]
  · rw [processTrades_errorMessage_eq]
    simp [initResult]

/-- Witness for C7 on a concrete two-trade batch with one failing trade. -/
theorem C7_batch_aggregation_witness :
    ((processTrades c7state [c7good, c7bad] (initResult 2)).valid = true ↔
      (processTrades c7state [c7good, c7bad] (initResult 2)).failedTrades = [])
    ∧ (processTrades c7state [c7good, c7bad] (initResult 2)).failedTrades =
        ([c7good, c7bad].filter (fun t => (verifyTrade t c7state).isSome)).map Trade.id
    ∧ (processTrades c7state [c7good, c7bad] (initResult 2)).errorMessage =
        firstFailMsg c7state [c7good, c7bad] :=
  C7_batch_aggregation [c7good, c7bad] c7snap c7state
    (processTrades c7state [c7good, c7bad] (initResult 2)) (by decide) (by decide)

/-- Claim C8: orders are resolved by first-match linear scan in the
matching side sequence only; a missing buy order fails the trade with the
buy-not-found message even when the sell lookup would also fail, a missing
sell order after a found buy order fails it with the sell-not-found
message, and lookups never raise a structural error on a valid-sided
snapshot. -/
theorem C8_order_resolution (t : Trade) (st : OrderbookState) (trades : List Trade)
    (snap : OrderbookSnapshot)
    (hvalid : ∀ o ∈ snap.orders, o.side = "buy" ∨ o.side = "sell") :
    (∀ (oid : String) (l : List Order),
      findOrderByID oid l = l.find? (fun o => o.id == oid))
    ∧ (findOrderByID t.buyOrderID st.buyOrders = none →
        verifyTrade t st = some ("buy order not found: " ++ t.buyOrderID))
    ∧ (∀ b, findOrderByID t.buyOrderID st.buyOrders = some b →
        findOrderByID t.sellOrderID st.sellOrders = none →
        verifyTrade t st = some ("sell order not found: " ++ t.sellOrderID))
    ∧ (VerifySnapshot trades snap).2 = none := by
  refine ⟨findOrderByID_eq_find, ?_, ?_, ?_⟩
  · intro h
    unfold verifyTrade
    rw [h]
  · intro b hb hs
    unfold verifyTrade
    rw [hb, hs]
  · rw [VerifySnapshot.eq_def, buildOrderbookState_eq snap.orders hvalid]

/-- Witness for C8: a trade whose buy order id exists only on the sell
side fails with the buy-not-found message, and the batch call returns no
structural error. -/
theorem C8_order_resolution_witness :
    verifyTrade c8t c8state = some ("buy order not found: " ++ c8t.buyOrderID)
    ∧ (VerifySnapshot [c8t] c8snap).2 = none :=
  ⟨(C8_order_resolution c8t c8state [c8t] c8snap (by decide)).2.1 (by decide),
   (C8_order_resolution c8t c8state [c8t] c8snap (by decide)).2.2.2⟩

/-- Claim C9: task validation rejects exactly the inputs with an empty
snapshot hash, empty batch id, zero sequence number, empty market id,
empty trade list, empty order list, or a trade referencing an order id
absent from the snapshot. -/
theorem C9_validate_task (ti : TaskInput) :
    ValidateTask ti ≠ none ↔
      ti.snapshotHash = "" ∨ ti.tradeBatchID = "" ∨ ti.snapshot.sequenceNumber = 0 ∨
      ti.snapshot.marketID = "" ∨ ti.trades = [] ∨ ti.snapshot.orders = [] ∨
      ∃ t ∈ ti.trades, (∀ o ∈ ti.snapshot.orders, o.id ≠ t.buyOrderID) ∨
        (∀ o ∈ ti.snapshot.orders, o.id ≠ t.sellOrderID) := by
  unfold ValidateTask
  split_ifs with h1 h2 h3 h4 h5 h6
  · simp [h1]
  · simp [h2]
  · simp [h3]
  · simp [h4]
  · simp [h5]
  · simp [h6]
  · simp only [h1, h2, h3, h4, h5, h6, false_or]
    rw [Ne, checkTradeRefs_eq_none_iff]
    constructor
    · intro h
      rcases not_forall.mp h with ⟨u, hu⟩
      rw [Classical.not_imp] at hu
      rcases hu with ⟨humem, hcon⟩
      rw [not_and_or] at hcon
      refine ⟨u, humem, ?_⟩
      rcases hcon with hc | hc
      · left
        intro o ho heq
        exact hc ⟨o, ho, heq⟩
      · right
        intro o ho heq
        exact hc ⟨o, ho, heq⟩
    · rintro ⟨u, hu, hc⟩ hall
      rcases hall u hu with ⟨⟨ob, hob, heqb⟩, ⟨os, hos, heqs⟩⟩
      rcases hc with hc | hc
      · exact hc ob hob heqb
      · exact hc os hos heqs

/-- Claim C10: a call returning without structural error counts every
trade exactly once as verified or failed, reports the input batch size as
the total, and carries an empty error message exactly when no trade
failed. -/
theorem C10_result_counts (trades : List Trade) (snap : OrderbookSnapshot)
    (r : VerificationResult)
    (h2 : (VerifySnapshot trades snap).2 = none)
    (h1 : (VerifySnapshot trades snap).1 = some r) :
    r.verifiedTrades + r.failedTrades.length = r.totalTrades
    ∧ r.totalTrades = trades.length
    ∧ (r.errorMessage = "" ↔ r.failedTrades = []) := by
  cases hb : buildOrderbookState snap.orders with
  | error e =>
    rw [VerifySnapshot.eq_def, hb] at h2
    simp at h2
  | ok st =>
    rw [VerifySnapshot.eq_def, hb] at h1
    simp at h1
    subst h1
    refine ⟨?_, ?_, ?_⟩
    · rw [processTrades_verifiedTrades, processTrades_failedTrades, processTrades_totalTrades]
      simp [initResult]
      exact filter_pass_fail_length st trades
    · rw [processTrades_totalTrades]
      simp [initResult]
    · rw [processTrades_errorMessage_eq, processTrades_failedTrades]
      simp [initResult, firstFailMsg_eq_empty_iff]

/-- Witness for C10 on a concrete two-trade batch with one failing trade. -/
theorem C10_result_counts_witness :
    (processTrades c7state [c7good, c7bad] (initResult 2)).verifiedTrades
        + (processTrades c7state [c7good, c7bad] (initResult 2)).failedTrades.length
      = (processTrades c7state [c7good, c7bad] (initResult 2)).totalTrades
    ∧ (processTrades c7state [c7good, c7bad] (initResult 2)).totalTrades = 2
    ∧ ((processTrades c7state [c7good, c7bad] (initResult 2)).errorMessage = "" ↔
        (processTrades c7state [c7good, c7bad] (initResult 2)).failedTrades = []) :=
  C10_result_counts [c7good, c7bad] c7snap
    (processTrades c7state [c7good, c7bad] (initResult 2)) (by decide) (by decide)

end PolymarketAVS
